import Mathlib

set_option maxHeartbeats 1000000

/-
Shallow embedding of the chatplot plugin subsystem:
src/backend/plugins/base.py (PluginManager) and
src/backend/plugin_manager.py (ChatPlotPluginManager).

Python dicts are modelled as insertion-ordered association lists with
unique keys; exceptions as an explicit error type threaded through
Except; side effects (logging, constructor invocation, shutdown calls)
as an explicit event trace returned alongside the result and the final
manager state. Each fallible operation returns the triple
(result, final state, emitted events): when the Python method raises,
the state component records exactly the mutations performed before the
exception escaped, as in the source.
-/

namespace Chatplot

/-- Configuration dictionary: string keys to string values, modelling the
Python Dict values passed to plugin initialization and stored in
PluginManager.plugin_configs. -/
abbrev Config := List (String × String)

/-- Tabular dataset handed to capability operations: named columns of cells. -/
abbrev Dataset := List (String × List String)

/-- Dictionary-shaped result returned by capability operations. -/
abbrev PyDict := List (String × String)

/-- Python exception values arising in the plugin subsystem. valueError and
importError are the ones PluginManager itself raises; configurationError,
capabilityError and modelNotTrainedError are the contract errors a plugin
may raise from its own methods; exception is any other exception raised
inside plugin code. pluginExecutionError is the wrapper error named by the
specification taxonomy (the source never constructs it; it is needed to
state the claim about wrapping). -/
inductive PyErr where
  | valueError (msg : String)
  | importError (msg : String)
  | configurationError (msg : String)
  | capabilityError (msg : String)
  | modelNotTrainedError (msg : String)
  | exception (msg : String)
  | pluginExecutionError (plugin : String) (cause : PyErr)
deriving DecidableEq

/-- The message text of an exception, as Python str(e) renders it. -/
def PyErr.str : PyErr → String
  | .valueError m => m
  | .importError m => m
  | .configurationError m => m
  | .capabilityError m => m
  | .modelNotTrainedError m => m
  | .exception m => m
  | .pluginExecutionError p _ => "Plugin execution error in " ++ p

/-- PluginMetadata dataclass from src/backend/plugins/base.py. -/
structure PluginMetadata where
  name : String
  version : String
  description : String
  author : String
  dependencies : List String
  entry_point : String
  config_schema : Option Config := none
deriving DecidableEq

/-- Which of the four capability interfaces a plugin class subclasses
(DataProcessorPlugin, VisualizationPlugin, AnalysisPlugin, ModelPlugin).
The dispatcher checks this with isinstance in the source. -/
inductive Capability where
  | dataProcessor
  | visualization
  | analysis
  | model
deriving DecidableEq

/-- A live plugin instance. The field init models the Python method
initialize as a pure function from the supplied optional configuration to
success or a raised exception; shutdown models the shutdown method the
same way; the five capability methods are modelled as pure functions from
the dataset to a result or a raised exception. -/
structure PluginInstance where
  metadata : PluginMetadata
  capability : Capability
  init : Option Config → Except PyErr Unit
  shutdown : Except PyErr Unit
  process_data : Dataset → Except PyErr PyDict
  create_visualization : Dataset → Except PyErr PyDict
  analyze_data : Dataset → Except PyErr PyDict
  train : Dataset → Except PyErr Unit
  predict : Dataset → Except PyErr PyDict

/-- A plugin class: calling the constructor (plugin_class() in the source)
either yields a fresh instance or raises. -/
structure PluginClass where
  construct : Except PyErr PluginInstance

/-- Observable side effects of the Python code: a constructor returning a
new instance, a shutdown call on a named plugin, and logger.error and
logger.info calls. -/
inductive Event where
  | constructed
  | shutdownCalled (name : String)
  | logError (msg : String)
  | logInfo (msg : String)
deriving DecidableEq

/-- PluginManager state from src/backend/plugins/base.py: the dict
self.plugins mapping plugin name to its instance (paired here with the
class it was constructed from, which Python recovers via type(plugin)),
and the dict self.plugin_configs mapping plugin name to its stored
configuration. -/
structure PluginManager where
  plugins : List (String × PluginClass × PluginInstance)
  plugin_configs : List (String × Config)

/-- PluginManager.__init__: both dicts empty. -/
def emptyManager : PluginManager := { plugins := [], plugin_configs := [] }

/-- The ambient import environment: which module names
importlib.import_module can resolve at the moment of the call. -/
structure Env where
  modules : List String

/-- Whether importlib.import_module(dep) succeeds in the given environment. -/
def importable (env : Env) (dep : String) : Bool := env.modules.contains dep

/-- Python dict lookup d.get(key) on an association list. -/
def alookup {α : Type} : List (String × α) → String → Option α
  | [], _ => none
  | (k, v) :: rest, key => if k = key then some v else alookup rest key

/-- Python dict assignment d[key] = v: replace in place if present,
append otherwise. -/
def aset {α : Type} : List (String × α) → String → α → List (String × α)
  | [], key, v => [(key, v)]
  | (k, w) :: rest, key, v =>
      if k = key then (key, v) :: rest else (k, w) :: aset rest key v

/-- Python dict deletion del d[key]. -/
def aerase {α : Type} : List (String × α) → String → List (String × α)
  | [], _ => []
  | (k, v) :: rest, key =>
      if k = key then aerase rest key else (k, v) :: aerase rest key

/-- Python truthiness of the Optional[Dict] argument config: None and the
empty dict are falsy, a non-empty dict is truthy. -/
def configTruthy : Option Config → Bool
  | none => false
  | some c => !c.isEmpty

/-- The declared dependencies that fail to import in the environment. -/
def missingDeps (env : Env) (deps : List String) : List String :=
  deps.filter (fun d => !(importable env d))

/-- PluginManager._validate_dependencies: try to import every declared
dependency, collect all that fail, and raise a single ImportError naming
all of them when the collection is non-empty. -/
def validate_dependencies (env : Env) (deps : List String) : Except PyErr Unit :=
  let missing := missingDeps env deps
  if missing.isEmpty then Except.ok ()
  else Except.error (PyErr.importError
    ("Missing dependencies: " ++ String.intercalate ", " missing))

/-- PluginManager.register_plugin: construct the instance, read its
metadata, reject duplicates, validate dependencies, call initialize with
the supplied configuration, and only then insert into self.plugins and,
when config is truthy, into self.plugin_configs. Every failure is logged
and re-raised, and happens before any mutation. -/
def register_plugin (env : Env) (st : PluginManager) (cls : PluginClass)
    (config : Option Config) : Except PyErr Unit × PluginManager × List Event :=
  match cls.construct with
  | Except.error e =>
      (Except.error e, st, [Event.logError ("Failed to register plugin: " ++ e.str)])
  | Except.ok plugin =>
      let name := plugin.metadata.name
      if (alookup st.plugins name).isSome then
        let e := PyErr.valueError ("Plugin " ++ name ++ " is already registered")
        (Except.error e, st,
          [Event.constructed, Event.logError ("Failed to register plugin: " ++ e.str)])
      else
        match validate_dependencies env plugin.metadata.dependencies with
        | Except.error e =>
            (Except.error e, st,
              [Event.constructed, Event.logError ("Failed to register plugin: " ++ e.str)])
        | Except.ok _ =>
            match plugin.init config with
            | Except.error e =>
                (Except.error e, st,
                  [Event.constructed, Event.logError ("Failed to register plugin: " ++ e.str)])
            | Except.ok _ =>
                (Except.ok (),
                  { plugins := aset st.plugins name (cls, plugin),
                    plugin_configs :=
                      if configTruthy config then
                        aset st.plugin_configs name (config.getD [])
                      else st.plugin_configs },
                  [Event.constructed,
                   Event.logInfo ("Successfully registered plugin: " ++ name
                     ++ " v" ++ plugin.metadata.version)])

/-- PluginManager.unregister_plugin: raise if absent; otherwise call
shutdown on the instance and, only when shutdown returned normally, delete
the entry from self.plugins and self.plugin_configs. A shutdown exception
is logged and re-raised, and no deletion happens (the del statements come
after the shutdown call inside the same try block). -/
def unregister_plugin (st : PluginManager) (name : String) :
    Except PyErr Unit × PluginManager × List Event :=
  match alookup st.plugins name with
  | none =>
      (Except.error (PyErr.valueError ("Plugin " ++ name ++ " is not registered")), st, [])
  | some (_, plugin) =>
      match plugin.shutdown with
      | Except.error e =>
          (Except.error e, st,
            [Event.shutdownCalled name,
             Event.logError ("Failed to unregister plugin: " ++ e.str)])
      | Except.ok _ =>
          (Except.ok (),
            { plugins := aerase st.plugins name,
              plugin_configs := aerase st.plugin_configs name },
            [Event.shutdownCalled name,
             Event.logInfo ("Successfully unregistered plugin: " ++ name)])

/-- PluginManager.get_plugin: raise if absent, return the instance. -/
def get_plugin (st : PluginManager) (name : String) : Except PyErr PluginInstance :=
  match alookup st.plugins name with
  | none => Except.error (PyErr.valueError ("Plugin " ++ name ++ " is not registered"))
  | some (_, plugin) => Except.ok plugin

/-- PluginManager.get_plugin_config: self.plugin_configs.get(plugin_name). -/
def get_plugin_config (st : PluginManager) (name : String) : Option Config :=
  alookup st.plugin_configs name

/-- PluginManager.update_plugin_config: raise if absent; otherwise call
initialize(config) on the existing instance and persist the new
configuration only when it returned normally. -/
def update_plugin_config (st : PluginManager) (name : String) (config : Config) :
    Except PyErr Unit × PluginManager × List Event :=
  match alookup st.plugins name with
  | none =>
      (Except.error (PyErr.valueError ("Plugin " ++ name ++ " is not registered")), st, [])
  | some (_, plugin) =>
      match plugin.init (some config) with
      | Except.error e =>
          (Except.error e, st,
            [Event.logError ("Failed to update plugin configuration: " ++ e.str)])
      | Except.ok _ =>
          (Except.ok (),
            { st with plugin_configs := aset st.plugin_configs name config },
            [Event.logInfo ("Successfully updated configuration for plugin: " ++ name)])

/-- PluginManager.reload_plugin: raise if absent; otherwise read the stored
configuration, unregister the old instance, and register a fresh instance
of the same class (type(plugin)) with that configuration. Failures from
either step are logged and re-raised, leaving whatever state the failing
step left behind. -/
def reload_plugin (env : Env) (st : PluginManager) (name : String) :
    Except PyErr Unit × PluginManager × List Event :=
  match alookup st.plugins name with
  | none =>
      (Except.error (PyErr.valueError ("Plugin " ++ name ++ " is not registered")), st, [])
  | some (cls, _) =>
      let config := alookup st.plugin_configs name
      match unregister_plugin st name with
      | (Except.error e, st1, evs) =>
          (Except.error e, st1,
            evs ++ [Event.logError ("Failed to reload plugin: " ++ e.str)])
      | (Except.ok _, st1, evs) =>
          match register_plugin env st1 cls config with
          | (Except.error e, st2, evs2) =>
              (Except.error e, st2,
                evs ++ evs2 ++ [Event.logError ("Failed to reload plugin: " ++ e.str)])
          | (Except.ok _, st2, evs2) =>
              (Except.ok (), st2,
                evs ++ evs2 ++ [Event.logInfo ("Successfully reloaded plugin: " ++ name)])

/-- A candidate source file seen by discovery: its file name, the plugin
classes obtained by loading and scanning the module (or the exception the
load raised, for a malformed file), and the parsed sibling config.yaml
when one exists next to the file. -/
structure SourceFile where
  name : String
  classes : Except PyErr (List PluginClass)
  config : Option Config

/-- The for-loop inside _load_plugin_from_file over the conforming classes
found in the module: register each with the sibling configuration; the
first exception escapes the loop. -/
def register_all (env : Env) : PluginManager → Option Config → List PluginClass →
    Except PyErr Unit × PluginManager × List Event
  | st, _, [] => (Except.ok (), st, [])
  | st, cfg, cls :: rest =>
      match register_plugin env st cls cfg with
      | (Except.error e, st1, evs) => (Except.error e, st1, evs)
      | (Except.ok _, st1, evs) =>
          match register_all env st1 cfg rest with
          | (r, st2, evs2) => (r, st2, evs ++ evs2)

/-- PluginManager._load_plugin_from_file: load the module (raising for a
malformed file) and register every conforming class found; the except
block logs the failure and re-raises it. -/
def load_plugin_from_file (env : Env) (st : PluginManager) (f : SourceFile) :
    Except PyErr Unit × PluginManager × List Event :=
  match f.classes with
  | Except.error e =>
      (Except.error e, st,
        [Event.logError ("Failed to load plugin from " ++ f.name ++ ": " ++ e.str)])
  | Except.ok classes =>
      match register_all env st f.config classes with
      | (Except.error e, st1, evs) =>
          (Except.error e, st1,
            evs ++ [Event.logError ("Failed to load plugin from " ++ f.name ++ ": " ++ e.str)])
      | (Except.ok _, st1, evs) => (Except.ok (), st1, evs)

/-- Whether the first character list leads the second (structural
reimplementation of list-level prefixing, so that concrete file names
evaluate inside the kernel). -/
def charsLead : List Char → List Char → Bool
  | [], _ => true
  | _ :: _, [] => false
  | a :: as, b :: bs => a == b && charsLead as bs

/-- Python str.endswith on the underlying character lists. -/
def strEndsWith (s suffix : String) : Bool :=
  charsLead suffix.data.reverse s.data.reverse

/-- Python str.startswith on the underlying character lists. -/
def strStartsWith (s p : String) : Bool :=
  charsLead p.data s.data

/-- The file-name filter inside load_plugins_from_directory: only .py
files not starting with a double underscore are candidates. -/
def eligibleFile (f : SourceFile) : Bool :=
  strEndsWith f.name ".py" && !(strStartsWith f.name "__")

/-- PluginManager.load_plugins_from_directory: walk the directory in order
and load every candidate file; the try block wraps the whole walk, so the
first exception from a candidate is logged at directory level and
re-raised, ending the scan. -/
def load_plugins_from_directory (env : Env) : PluginManager → List SourceFile →
    Except PyErr Unit × PluginManager × List Event
  | st, [] => (Except.ok (), st, [])
  | st, f :: rest =>
      if eligibleFile f then
        match load_plugin_from_file env st f with
        | (Except.error e, st1, evs) =>
            (Except.error e, st1,
              evs ++ [Event.logError ("Failed to load plugins from directory: " ++ e.str)])
        | (Except.ok _, st1, evs) =>
            match load_plugins_from_directory env st1 rest with
            | (r, st2, evs2) => (r, st2, evs ++ evs2)
      else load_plugins_from_directory env st rest

/-- ChatPlotPluginManager.process_data from src/backend/plugin_manager.py:
resolve the plugin, check isinstance DataProcessorPlugin, invoke
process_data inside a try block whose except logs and re-raises the
original exception unchanged. -/
def process_data (st : PluginManager) (name : String) (data : Dataset) :
    Except PyErr PyDict × List Event :=
  match get_plugin st name with
  | Except.error e => (Except.error e, [])
  | Except.ok plugin =>
      if plugin.capability = Capability.dataProcessor then
        match plugin.process_data data with
        | Except.error e =>
            (Except.error e,
              [Event.logError ("Error processing data with plugin " ++ name ++ ": " ++ e.str)])
        | Except.ok r => (Except.ok r, [])
      else
        (Except.error (PyErr.valueError
          ("Plugin " ++ name ++ " is not a data processor plugin")), [])

/-- ChatPlotPluginManager.create_visualization: same shape as process_data
with the VisualizationPlugin isinstance check. -/
def create_visualization (st : PluginManager) (name : String) (data : Dataset) :
    Except PyErr PyDict × List Event :=
  match get_plugin st name with
  | Except.error e => (Except.error e, [])
  | Except.ok plugin =>
      if plugin.capability = Capability.visualization then
        match plugin.create_visualization data with
        | Except.error e =>
            (Except.error e,
              [Event.logError ("Error creating visualization with plugin " ++ name ++ ": " ++ e.str)])
        | Except.ok r => (Except.ok r, [])
      else
        (Except.error (PyErr.valueError
          ("Plugin " ++ name ++ " is not a visualization plugin")), [])

/-- ChatPlotPluginManager.analyze_data: same shape with the AnalysisPlugin
isinstance check. -/
def analyze_data (st : PluginManager) (name : String) (data : Dataset) :
    Except PyErr PyDict × List Event :=
  match get_plugin st name with
  | Except.error e => (Except.error e, [])
  | Except.ok plugin =>
      if plugin.capability = Capability.analysis then
        match plugin.analyze_data data with
        | Except.error e =>
            (Except.error e,
              [Event.logError ("Error analyzing data with plugin " ++ name ++ ": " ++ e.str)])
        | Except.ok r => (Except.ok r, [])
      else
        (Except.error (PyErr.valueError
          ("Plugin " ++ name ++ " is not an analysis plugin")), [])

/-- ChatPlotPluginManager.train_model: same shape with the ModelPlugin
isinstance check; the operation returns nothing. -/
def train_model (st : PluginManager) (name : String) (data : Dataset) :
    Except PyErr Unit × List Event :=
  match get_plugin st name with
  | Except.error e => (Except.error e, [])
  | Except.ok plugin =>
      if plugin.capability = Capability.model then
        match plugin.train data with
        | Except.error e =>
            (Except.error e,
              [Event.logError ("Error training model with plugin " ++ name ++ ": " ++ e.str)])
        | Except.ok _ => (Except.ok (), [])
      else
        (Except.error (PyErr.valueError
          ("Plugin " ++ name ++ " is not a model plugin")), [])

/-- ChatPlotPluginManager.predict_with_model: same shape with the
ModelPlugin isinstance check. -/
def predict_with_model (st : PluginManager) (name : String) (data : Dataset) :
    Except PyErr PyDict × List Event :=
  match get_plugin st name with
  | Except.error e => (Except.error e, [])
  | Except.ok plugin =>
      if plugin.capability = Capability.model then
        match plugin.predict data with
        | Except.error e =>
            (Except.error e,
              [Event.logError ("Error making predictions with plugin " ++ name ++ ": " ++ e.str)])
        | Except.ok r => (Except.ok r, [])
      else
        (Except.error (PyErr.valueError
          ("Plugin " ++ name ++ " is not a model plugin")), [])

/-- One mutating registry operation, for reasoning about reachable states. -/
inductive Op where
  | reg (cls : PluginClass) (cfg : Option Config)
  | unreg (name : String)
  | rel (name : String)
  | upd (name : String) (cfg : Config)

/-- The state after performing one operation (whether it raised or not:
the state component of the triple is the state the Python object is left
in either way). -/
def runOp (env : Env) (st : PluginManager) : Op → PluginManager
  | Op.reg cls cfg => (register_plugin env st cls cfg).2.1
  | Op.unreg name => (unregister_plugin st name).2.1
  | Op.rel name => (reload_plugin env st name).2.1
  | Op.upd name cfg => (update_plugin_config st name cfg).2.1

/-- The state after a sequence of operations. -/
def runOps (env : Env) : PluginManager → List Op → PluginManager
  | st, [] => st
  | st, op :: rest => runOps env (runOp env st op) rest

/-- Every name holding a stored configuration is also a registered plugin. -/
def configsSub (st : PluginManager) : Prop :=
  ∀ n, (alookup st.plugin_configs n).isSome = true → (alookup st.plugins n).isSome = true

theorem alookup_aset_self {α : Type} (l : List (String × α)) (k : String) (v : α) :
    alookup (aset l k v) k = some v := by
  induction l with
  | nil => simp [aset, alookup]
  | cons kv rest ih =>
      by_cases h : kv.1 = k
      · simp [aset, alookup, h]
      · simp [aset, alookup, h, ih]

theorem alookup_aset_ne {α : Type} (l : List (String × α)) (k key : String) (v : α)
    (h : k ≠ key) : alookup (aset l k v) key = alookup l key := by
  induction l with
  | nil => simp [aset, alookup, h]
  | cons kv rest ih =>
      by_cases hk : kv.1 = k
      · simp [aset, alookup, hk, h]
      · simp [aset, alookup, hk, ih]

theorem alookup_aerase_self {α : Type} (l : List (String × α)) (k : String) :
    alookup (aerase l k) k = none := by
  induction l with
  | nil => simp [aerase, alookup]
  | cons kv rest ih =>
      by_cases h : kv.1 = k
      · simp [aerase, h, ih]
      · simp [aerase, alookup, h, ih]

theorem alookup_aerase_ne {α : Type} (l : List (String × α)) (k key : String)
    (h : k ≠ key) : alookup (aerase l k) key = alookup l key := by
  induction l with
  | nil => simp [aerase]
  | cons kv rest ih =>
      by_cases hk : kv.1 = k
      · have hkey : kv.1 ≠ key := by rw [hk]; exact h
        simp [aerase, alookup, hk, hkey, h, ih]
      · simp [aerase, alookup, hk, ih]

theorem register_plugin_error_state (env : Env) (st : PluginManager) (cls : PluginClass)
    (config : Option Config) (e : PyErr)
    (h : (register_plugin env st cls config).1 = Except.error e) :
    (register_plugin env st cls config).2.1 = st := by
  revert h
  unfold register_plugin
  rcases cls.construct with e0 | plugin
  · intro _h; trivial
  · dsimp only
    by_cases hd : (alookup st.plugins plugin.metadata.name).isSome = true
    · simp only [hd, if_true]; intro _h; trivial
    · simp only [hd, if_false]
      rcases validate_dependencies env plugin.metadata.dependencies with e1 | u
      · intro _h; trivial
      · rcases plugin.init config with e2 | v
        · intro _h; trivial
        · intro h; exact absurd h (by simp)

theorem register_plugin_ok_state (env : Env) (st : PluginManager) (cls : PluginClass)
    (config : Option Config)
    (h : (register_plugin env st cls config).1 = Except.ok ()) :
    ∃ plugin, cls.construct = Except.ok plugin ∧
      (alookup st.plugins plugin.metadata.name).isSome = false ∧
      validate_dependencies env plugin.metadata.dependencies = Except.ok () ∧
      plugin.init config = Except.ok () ∧
      (register_plugin env st cls config).2.1 =
        { plugins := aset st.plugins plugin.metadata.name (cls, plugin),
          plugin_configs :=
            if configTruthy config then
              aset st.plugin_configs plugin.metadata.name (config.getD [])
            else st.plugin_configs } := by
  revert h
  unfold register_plugin
  rcases hc : cls.construct with e0 | plugin
  · intro h; exact absurd h (by simp)
  · dsimp only
    by_cases hd : (alookup st.plugins plugin.metadata.name).isSome = true
    · simp only [hd, if_true]; intro h; exact absurd h (by simp)
    · simp only [hd, if_false]
      rcases hv : validate_dependencies env plugin.metadata.dependencies with e1 | u
      · intro h; exact absurd h (by simp)
      · rcases hi : plugin.init config with e2 | v
        · intro h; exact absurd h (by simp)
        · intro _
          exact ⟨plugin, rfl, Bool.eq_false_iff.mpr hd, hv, hi, rfl⟩

theorem unregister_plugin_error_state (st : PluginManager) (name : String) (e : PyErr)
    (h : (unregister_plugin st name).1 = Except.error e) :
    (unregister_plugin st name).2.1 = st := by
  revert h
  unfold unregister_plugin
  rcases alookup st.plugins name with _ | ⟨cls, plugin⟩
  · intro _h; trivial
  · dsimp only
    rcases plugin.shutdown with e1 | u
    · intro _h; trivial
    · intro h; exact absurd h (by simp)

theorem unregister_plugin_ok_state (st : PluginManager) (name : String)
    (h : (unregister_plugin st name).1 = Except.ok ()) :
    (unregister_plugin st name).2.1 =
      { plugins := aerase st.plugins name,
        plugin_configs := aerase st.plugin_configs name } := by
  revert h
  unfold unregister_plugin
  rcases alookup st.plugins name with _ | ⟨cls, plugin⟩
  · intro h; exact absurd h (by simp)
  · dsimp only
    rcases plugin.shutdown with e1 | u
    · intro h; exact absurd h (by simp)
    · intro _h; trivial

theorem update_plugin_config_error_state (st : PluginManager) (name : String)
    (config : Config) (e : PyErr)
    (h : (update_plugin_config st name config).1 = Except.error e) :
    (update_plugin_config st name config).2.1 = st := by
  revert h
  unfold update_plugin_config
  rcases alookup st.plugins name with _ | ⟨cls, plugin⟩
  · intro _h; trivial
  · dsimp only
    rcases plugin.init (some config) with e1 | u
    · intro _h; trivial
    · intro h; exact absurd h (by simp)

theorem update_plugin_config_ok_state (st : PluginManager) (name : String)
    (config : Config)
    (h : (update_plugin_config st name config).1 = Except.ok ()) :
    (alookup st.plugins name).isSome = true ∧
    (update_plugin_config st name config).2.1 =
      { st with plugin_configs := aset st.plugin_configs name config } := by
  revert h
  unfold update_plugin_config
  rcases alookup st.plugins name with _ | ⟨cls, plugin⟩
  · intro h; exact absurd h (by simp)
  · dsimp only
    rcases plugin.init (some config) with e1 | u
    · intro h; exact absurd h (by simp)
    · intro _; exact ⟨rfl, rfl⟩

/-- Metadata for concrete demonstration plugins. -/
def demoMeta (n : String) (deps : List String) : PluginMetadata :=
  { name := n, version := "1.0", description := "demo", author := "a",
    dependencies := deps, entry_point := n }

/-- A concrete well-behaved data-processor plugin instance. -/
def demoInstance (n : String) (deps : List String) : PluginInstance :=
  { metadata := demoMeta n deps
    capability := Capability.dataProcessor
    init := fun _ => Except.ok ()
    shutdown := Except.ok ()
    process_data := fun _ => Except.ok []
    create_visualization := fun _ => Except.ok []
    analyze_data := fun _ => Except.ok []
    train := fun _ => Except.ok ()
    predict := fun _ => Except.ok [] }

/-- A concrete class whose constructor returns the demo instance. -/
def demoClass (n : String) (deps : List String) : PluginClass :=
  { construct := Except.ok (demoInstance n deps) }

/-- An import environment resolving no modules. -/
def envNone : Env := { modules := [] }

/-- An import environment resolving only numpy. -/
def envNumpy : Env := { modules := ["numpy"] }

/-- A manager with the demo plugin registered under the name demo. -/
def stDemo : PluginManager :=
  (register_plugin envNone emptyManager (demoClass "demo" []) none).2.1

/-- Claim C1: for every constructor and configuration, if register fails at
any step (constructor raising, duplicate name, dependency validation, or
initialize raising), the plugin table and the stored-configuration table
are exactly as they were before the call. -/
theorem register_failure_leaves_manager_unchanged (env : Env) (st : PluginManager)
    (cls : PluginClass) (config : Option Config) (e : PyErr)
    (h : (register_plugin env st cls config).1 = Except.error e) :
    (register_plugin env st cls config).2.1.plugins = st.plugins ∧
    (register_plugin env st cls config).2.1.plugin_configs = st.plugin_configs := by
  have hs := register_plugin_error_state env st cls config e h
  exact ⟨by rw [hs], by rw [hs]⟩

/-- Witness for C1: registering the demo class a second time fails with the
duplicate-name error and both tables are unchanged. -/
theorem register_failure_leaves_manager_unchanged_wit :
    (register_plugin envNone stDemo (demoClass "demo" []) none).2.1.plugins = stDemo.plugins ∧
    (register_plugin envNone stDemo (demoClass "demo" []) none).2.1.plugin_configs
      = stDemo.plugin_configs :=
  register_failure_leaves_manager_unchanged envNone stDemo (demoClass "demo" []) none
    (PyErr.valueError "Plugin demo is already registered") rfl

/-- A plugin whose shutdown method raises. -/
def badShutdownInstance : PluginInstance :=
  { demoInstance "bad" [] with shutdown := Except.error (PyErr.exception "shutdown boom") }

/-- The class constructing badShutdownInstance. -/
def badShutdownClass : PluginClass := { construct := Except.ok badShutdownInstance }

/-- A manager with the bad-shutdown plugin registered under the name bad. -/
def stBad : PluginManager :=
  (register_plugin envNone emptyManager badShutdownClass none).2.1

/-- Claim C4 counterexample: unregister of a plugin whose shutdown raises
re-raises the exception to the caller and does not remove the entry, so
get still succeeds afterwards; the claim says the exception is swallowed
and the entry removed. -/
theorem unregister_shutdown_failure_cex :
    (unregister_plugin stBad "bad").1 = Except.error (PyErr.exception "shutdown boom") ∧
    get_plugin (unregister_plugin stBad "bad").2.1 "bad" = Except.ok badShutdownInstance :=
  ⟨rfl, rfl⟩

/-- Claim C4 as amended: when shutdown raises during unregister, the
exception is logged and propagated to the caller, and the registry is left
unchanged, the entry still present. -/
theorem unregister_shutdown_failure_keeps_entry (st : PluginManager) (name : String)
    (cls : PluginClass) (p : PluginInstance) (e : PyErr)
    (hlk : alookup st.plugins name = some (cls, p))
    (hs : p.shutdown = Except.error e) :
    (unregister_plugin st name).1 = Except.error e ∧
    (unregister_plugin st name).2.1 = st ∧
    Event.logError ("Failed to unregister plugin: " ++ e.str)
      ∈ (unregister_plugin st name).2.2 := by
  unfold unregister_plugin
  rw [hlk]
  dsimp only
  rw [hs]
  exact ⟨rfl, rfl, by simp⟩

/-- Witness for the amended C4 at the concrete bad-shutdown plugin. -/
theorem unregister_shutdown_failure_keeps_entry_wit :
    (unregister_plugin stBad "bad").1 = Except.error (PyErr.exception "shutdown boom") ∧
    (unregister_plugin stBad "bad").2.1 = stBad ∧
    Event.logError "Failed to unregister plugin: shutdown boom"
      ∈ (unregister_plugin stBad "bad").2.2 :=
  unregister_shutdown_failure_keeps_entry stBad "bad" badShutdownClass badShutdownInstance
    (PyErr.exception "shutdown boom") rfl rfl

/-- A class declaring two unresolvable dependencies. -/
def depClass : PluginClass := { construct := Except.ok (demoInstance "dep" ["alpha", "beta"]) }

/-- Claim C5 counterexample: registering a class with unresolvable
dependencies fails with an ImportError naming both missing dependencies,
but a plugin instance has been constructed (the constructor runs before
dependency validation, because metadata is read from the instance); the
claim says no instance is constructed. -/
theorem register_missing_deps_cex :
    (register_plugin envNone emptyManager depClass none).1 =
      Except.error (PyErr.importError "Missing dependencies: alpha, beta") ∧
    Event.constructed ∈ (register_plugin envNone emptyManager depClass none).2.2 :=
  ⟨rfl, by decide⟩

/-- Claim C5 as amended: with at least one unresolvable dependency,
register fails with the ImportError naming every missing dependency and no
entry is inserted, but the plugin instance has already been constructed
before the validation step. -/
theorem register_missing_deps_names_all (env : Env) (st : PluginManager)
    (cls : PluginClass) (config : Option Config) (plugin : PluginInstance)
    (hc : cls.construct = Except.ok plugin)
    (hd : (alookup st.plugins plugin.metadata.name).isSome = false)
    (hm : missingDeps env plugin.metadata.dependencies ≠ []) :
    (register_plugin env st cls config).1 =
      Except.error (PyErr.importError ("Missing dependencies: "
        ++ String.intercalate ", " (missingDeps env plugin.metadata.dependencies))) ∧
    (register_plugin env st cls config).2.1 = st ∧
    Event.constructed ∈ (register_plugin env st cls config).2.2 := by
  have hd2 : ¬((alookup st.plugins plugin.metadata.name).isSome = true) := by simp [hd]
  have hv : validate_dependencies env plugin.metadata.dependencies =
      Except.error (PyErr.importError ("Missing dependencies: "
        ++ String.intercalate ", " (missingDeps env plugin.metadata.dependencies))) := by
    unfold validate_dependencies
    have : (missingDeps env plugin.metadata.dependencies).isEmpty = false := by
      cases hmm : missingDeps env plugin.metadata.dependencies with
      | nil => exact absurd hmm hm
      | cons a l => simp [List.isEmpty]
    simp [this]
  unfold register_plugin
  rw [hc]
  dsimp only
  rw [if_neg hd2, hv]
  exact ⟨rfl, rfl, by simp⟩

/-- Witness for the amended C5 at the concrete two-missing-dependency class. -/
theorem register_missing_deps_names_all_wit :
    (register_plugin envNone emptyManager depClass none).1 =
      Except.error (PyErr.importError ("Missing dependencies: "
        ++ String.intercalate ", " (missingDeps envNone ["alpha", "beta"]))) ∧
    (register_plugin envNone emptyManager depClass none).2.1 = emptyManager ∧
    Event.constructed ∈ (register_plugin envNone emptyManager depClass none).2.2 :=
  register_missing_deps_names_all envNone emptyManager depClass none
    (demoInstance "dep" ["alpha", "beta"]) rfl rfl (by decide)

/-- A plugin that rejects one particular configuration from initialize. -/
def pickyInstance : PluginInstance :=
  { demoInstance "picky" [] with
    init := fun c =>
      if c = some [("bad", "1")] then Except.error (PyErr.configurationError "bad value")
      else Except.ok () }

/-- The class constructing pickyInstance. -/
def pickyClass : PluginClass := { construct := Except.ok pickyInstance }

/-- A manager with the picky plugin registered under the name picky. -/
def stPicky : PluginManager :=
  (register_plugin envNone emptyManager pickyClass none).2.1

/-- Claim C6: for every registered name and configuration the instance
rejects from initialize with a ConfigurationError, update_plugin_config
fails with that ConfigurationError and the stored configuration is
unchanged: get_plugin_config afterwards equals get_plugin_config before. -/
theorem update_config_failure_preserves_config (st : PluginManager) (name : String)
    (cfg : Config) (cls : PluginClass) (p : PluginInstance) (m : String)
    (hlk : alookup st.plugins name = some (cls, p))
    (hrej : p.init (some cfg) = Except.error (PyErr.configurationError m)) :
    (update_plugin_config st name cfg).1 = Except.error (PyErr.configurationError m) ∧
    get_plugin_config (update_plugin_config st name cfg).2.1 name
      = get_plugin_config st name := by
  unfold update_plugin_config
  rw [hlk]
  dsimp only
  rw [hrej]
  exact ⟨rfl, rfl⟩

/-- Witness for C6 at the picky plugin and the configuration it rejects. -/
theorem update_config_failure_preserves_config_wit :
    (update_plugin_config stPicky "picky" [("bad", "1")]).1 =
      Except.error (PyErr.configurationError "bad value") ∧
    get_plugin_config (update_plugin_config stPicky "picky" [("bad", "1")]).2.1 "picky"
      = get_plugin_config stPicky "picky" :=
  update_config_failure_preserves_config stPicky "picky" [("bad", "1")]
    pickyClass pickyInstance "bad value" rfl rfl

/-- A class declaring a dependency on numpy. -/
def numpyClass : PluginClass := { construct := Except.ok (demoInstance "ndemo" ["numpy"]) }

/-- A manager with the numpy-dependent plugin registered while numpy was
importable. -/
def stNumpy : PluginManager :=
  (register_plugin envNumpy emptyManager numpyClass none).2.1

/-- Claim C2 counterexample: with ndemo registered and Active, reloading it
after numpy stops being importable fails in the re-registration step, and
the previously Active entry is gone from the registry, not still present
as the claim states: reload unregisters first and does not roll back. -/
theorem reload_failure_entry_removed_cex :
    alookup stNumpy.plugins "ndemo" = some (numpyClass, demoInstance "ndemo" ["numpy"]) ∧
    (reload_plugin envNone stNumpy "ndemo").1 =
      Except.error (PyErr.importError "Missing dependencies: numpy") ∧
    alookup (reload_plugin envNone stNumpy "ndemo").2.1.plugins "ndemo" = none :=
  ⟨rfl, rfl, rfl⟩

/-- Claim C2 as amended: for a registered name whose instance shuts down
normally, if the re-registration step of reload fails then the previously
Active entry has been removed: the name is left unregistered rather than
rolled back. -/
theorem reload_failure_leaves_name_unregistered (env : Env) (st : PluginManager)
    (name : String) (cls : PluginClass) (p : PluginInstance) (e : PyErr)
    (hlk : alookup st.plugins name = some (cls, p))
    (hs : p.shutdown = Except.ok ())
    (herr : (reload_plugin env st name).1 = Except.error e) :
    alookup (reload_plugin env st name).2.1.plugins name = none := by
  have hu : unregister_plugin st name =
      (Except.ok (),
        { plugins := aerase st.plugins name,
          plugin_configs := aerase st.plugin_configs name },
        [Event.shutdownCalled name,
         Event.logInfo ("Successfully unregistered plugin: " ++ name)]) := by
    unfold unregister_plugin
    rw [hlk]
    dsimp only
    rw [hs]
  revert herr
  unfold reload_plugin
  rw [hlk]
  dsimp only
  rw [hu]
  dsimp only
  rcases hr : register_plugin env
      { plugins := aerase st.plugins name, plugin_configs := aerase st.plugin_configs name }
      cls (alookup st.plugin_configs name) with ⟨r, st2, evs2⟩
  have hst2 : st2 = (register_plugin env
      { plugins := aerase st.plugins name, plugin_configs := aerase st.plugin_configs name }
      cls (alookup st.plugin_configs name)).2.1 := by rw [hr]
  cases r with
  | error e2 =>
      intro _herr
      dsimp only
      have hes := register_plugin_error_state env
        { plugins := aerase st.plugins name, plugin_configs := aerase st.plugin_configs name }
        cls (alookup st.plugin_configs name) e2 (by rw [hr])
      rw [hst2, hes]
      exact alookup_aerase_self st.plugins name
  | ok u =>
      intro herr
      exact absurd herr (by simp)

/-- Witness for the amended C2: the concrete reload failure above leaves
ndemo unregistered. -/
theorem reload_failure_leaves_name_unregistered_wit :
    alookup (reload_plugin envNone stNumpy "ndemo").2.1.plugins "ndemo" = none :=
  reload_failure_leaves_name_unregistered envNone stNumpy "ndemo" numpyClass
    (demoInstance "ndemo" ["numpy"]) (PyErr.importError "Missing dependencies: numpy")
    rfl rfl rfl

/-- A manager with the demo plugin p registered and an empty configuration
subsequently stored for it through update_plugin_config. -/
def stEmptyCfg : PluginManager :=
  (update_plugin_config
    ((register_plugin envNone emptyManager (demoClass "p" []) none).2.1) "p" []).2.1

/-- Claim C7 counterexample: with an empty configuration stored for p, the
reload succeeds but get_plugin_config changes from the empty dict to none,
because register_plugin stores only truthy configurations; the claim says
every successful reload preserves the stored configuration. -/
theorem reload_drops_empty_config_cex :
    get_plugin_config stEmptyCfg "p" = some [] ∧
    (reload_plugin envNone stEmptyCfg "p").1 = Except.ok () ∧
    get_plugin_config (reload_plugin envNone stEmptyCfg "p").2.1 "p" = none :=
  ⟨rfl, rfl, rfl⟩

/-- Claim C7 as amended: a successful reload preserves the stored
configuration whenever that configuration is absent or non-empty; only the
empty stored configuration (reachable through update_plugin_config) is
dropped to none. The hypothesis hname records that the class constructs
instances carrying the registered name, as every entry created by
register_plugin does. -/
theorem reload_preserves_nonempty_config (env : Env) (st : PluginManager)
    (name : String) (cls : PluginClass) (p : PluginInstance)
    (hlk : alookup st.plugins name = some (cls, p))
    (hname : ∀ q, cls.construct = Except.ok q → q.metadata.name = name)
    (hcfg : get_plugin_config st name ≠ some [])
    (hok : (reload_plugin env st name).1 = Except.ok ()) :
    get_plugin_config (reload_plugin env st name).2.1 name
      = get_plugin_config st name := by
  rcases hsd : p.shutdown with e1 | u
  · exfalso
    have hu : unregister_plugin st name =
        (Except.error e1, st,
          [Event.shutdownCalled name,
           Event.logError ("Failed to unregister plugin: " ++ e1.str)]) := by
      unfold unregister_plugin
      rw [hlk]
      dsimp only
      rw [hsd]
    revert hok
    unfold reload_plugin
    rw [hlk]
    dsimp only
    rw [hu]
    dsimp only
    intro hok
    exact absurd hok (by simp)
  · have hu : unregister_plugin st name =
        (Except.ok (),
          { plugins := aerase st.plugins name,
            plugin_configs := aerase st.plugin_configs name },
          [Event.shutdownCalled name,
           Event.logInfo ("Successfully unregistered plugin: " ++ name)]) := by
      unfold unregister_plugin
      rw [hlk]
      dsimp only
      rw [hsd]
    revert hok
    unfold reload_plugin
    rw [hlk]
    dsimp only
    rw [hu]
    dsimp only
    rcases hr : register_plugin env
        { plugins := aerase st.plugins name, plugin_configs := aerase st.plugin_configs name }
        cls (alookup st.plugin_configs name) with ⟨r, st2, evs2⟩
    cases r with
    | error e2 =>
        intro hok
        exact absurd hok (by simp)
    | ok u =>
        intro _hok
        dsimp only
        obtain ⟨q, hcq, _hdup, _hv, _hi, hstate⟩ := register_plugin_ok_state env
          { plugins := aerase st.plugins name, plugin_configs := aerase st.plugin_configs name }
          cls (alookup st.plugin_configs name) (by rw [hr])
        have hq : q.metadata.name = name := hname q hcq
        have hst2 : st2 = (register_plugin env
            { plugins := aerase st.plugins name,
              plugin_configs := aerase st.plugin_configs name }
            cls (alookup st.plugin_configs name)).2.1 := by rw [hr]
        rw [hst2, hstate]
        unfold get_plugin_config
        dsimp only
        rw [hq]
        rcases hcv : alookup st.plugin_configs name with _ | c
        · simp only [configTruthy, if_neg (by simp : ¬(false = true))]
          rw [alookup_aerase_self]
        · cases c with
          | nil => exact absurd (by unfold get_plugin_config; rw [hcv]) hcfg
          | cons a l =>
              simp only [configTruthy, List.isEmpty, Bool.not_false, if_true]
              rw [alookup_aset_self]
              rfl

/-- A manager with the demo plugin q registered with a one-entry
configuration. -/
def stFullCfg : PluginManager :=
  (register_plugin envNone emptyManager (demoClass "q" []) (some [("k", "v")])).2.1

/-- Witness for the amended C7: reloading q preserves its stored one-entry
configuration. -/
theorem reload_preserves_nonempty_config_wit :
    get_plugin_config (reload_plugin envNone stFullCfg "q").2.1 "q"
      = get_plugin_config stFullCfg "q" :=
  reload_preserves_nonempty_config envNone stFullCfg "q" (demoClass "q" [])
    (demoInstance "q" []) rfl
    (fun q hq => by injection hq with h; rw [← h]; rfl)
    (by decide) rfl

/-- A conforming candidate source file holding one demo plugin class. -/
def goodFile : SourceFile :=
  { name := "good.py", classes := Except.ok [demoClass "good" []], config := none }

/-- A malformed candidate source file whose module load raises. -/
def badFile : SourceFile :=
  { name := "bad.py",
    classes := Except.error (PyErr.importError "Could not load plugin from bad.py"),
    config := none }

/-- Claim C3 counterexample: scanning a directory holding one malformed
file followed by one conforming plugin raises from the discovery call and
registers zero plugins, not one: the scan does not continue past the bad
candidate. -/
theorem discovery_bad_candidate_aborts_cex :
    (load_plugins_from_directory envNone emptyManager [badFile, goodFile]).1 =
      Except.error (PyErr.importError "Could not load plugin from bad.py") ∧
    (load_plugins_from_directory envNone emptyManager [badFile, goodFile]).2.1.plugins = [] :=
  ⟨rfl, rfl⟩

/-- Claim C3 as amended: a failure to load or register one candidate is
logged and re-raised, aborting the scan: the discovery call raises the
candidate error, the remaining candidates are never scanned, and the
state is whatever the failing candidate left (candidates scanned earlier
stay registered). -/
theorem discovery_aborts_on_first_failure (env : Env) (st : PluginManager)
    (f : SourceFile) (rest : List SourceFile) (e : PyErr)
    (helig : eligibleFile f = true)
    (herr : (load_plugin_from_file env st f).1 = Except.error e) :
    (load_plugins_from_directory env st (f :: rest)).1 = Except.error e ∧
    (load_plugins_from_directory env st (f :: rest)).2.1
      = (load_plugin_from_file env st f).2.1 ∧
    (load_plugins_from_directory env st (f :: rest)).2.2
      = (load_plugin_from_file env st f).2.2
        ++ [Event.logError ("Failed to load plugins from directory: " ++ e.str)] := by
  unfold load_plugins_from_directory
  rw [if_pos helig]
  rcases hl : load_plugin_from_file env st f with ⟨r, st1, evs⟩
  rw [hl] at herr
  dsimp only at herr
  subst herr
  exact ⟨rfl, rfl, rfl⟩

/-- Witness for the amended C3 at the malformed candidate with a
conforming candidate behind it. -/
theorem discovery_aborts_on_first_failure_wit :
    (load_plugins_from_directory envNone emptyManager [badFile, goodFile]).1 =
      Except.error (PyErr.importError "Could not load plugin from bad.py") ∧
    (load_plugins_from_directory envNone emptyManager [badFile, goodFile]).2.1
      = (load_plugin_from_file envNone emptyManager badFile).2.1 ∧
    (load_plugins_from_directory envNone emptyManager [badFile, goodFile]).2.2
      = (load_plugin_from_file envNone emptyManager badFile).2.2
        ++ [Event.logError
            "Failed to load plugins from directory: Could not load plugin from bad.py"] :=
  discovery_aborts_on_first_failure envNone emptyManager badFile [goodFile]
    (PyErr.importError "Could not load plugin from bad.py") rfl rfl

/-- A data-processor plugin whose process_data raises a generic exception. -/
def boomInstance : PluginInstance :=
  { demoInstance "boom" [] with
    process_data := fun _ => Except.error (PyErr.exception "boom") }

/-- The class constructing boomInstance. -/
def boomClass : PluginClass := { construct := Except.ok boomInstance }

/-- A manager with the boom plugin registered under the name boom. -/
def stBoom : PluginManager :=
  (register_plugin envNone emptyManager boomClass none).2.1

/-- Claim C8 counterexample: a generic exception raised inside process_data
reaches the caller as that very exception, not wrapped in any
pluginExecutionError carrying the plugin name and cause as the claim
states: the dispatcher logs and re-raises the original. -/
theorem dispatch_no_wrapping_cex :
    (process_data stBoom "boom" []).1 = Except.error (PyErr.exception "boom") ∧
    (process_data stBoom "boom" []).1 ≠
      Except.error (PyErr.pluginExecutionError "boom" (PyErr.exception "boom")) := by
  refine ⟨rfl, ?_⟩
  intro h
  have h2 : PyErr.exception "boom"
      = PyErr.pluginExecutionError "boom" (PyErr.exception "boom") :=
    Except.error.inj
      ((rfl : (process_data stBoom "boom" []).1
        = Except.error (PyErr.exception "boom")).symm.trans h)
  cases h2

/-- Claim C8 as amended: for each of the five capability operations on a
registered plugin of the right capability, every exception the plugin
raises, the CapabilityError and ModelNotTrainedError contract errors
included, propagates to the caller unchanged; no wrapping into a
pluginExecutionError occurs. -/
theorem dispatch_errors_propagate_unchanged (st : PluginManager) (name : String)
    (data : Dataset) (e : PyErr) :
    (∀ cls p, alookup st.plugins name = some (cls, p) →
      p.capability = Capability.dataProcessor → p.process_data data = Except.error e →
      (process_data st name data).1 = Except.error e) ∧
    (∀ cls p, alookup st.plugins name = some (cls, p) →
      p.capability = Capability.visualization → p.create_visualization data = Except.error e →
      (create_visualization st name data).1 = Except.error e) ∧
    (∀ cls p, alookup st.plugins name = some (cls, p) →
      p.capability = Capability.analysis → p.analyze_data data = Except.error e →
      (analyze_data st name data).1 = Except.error e) ∧
    (∀ cls p, alookup st.plugins name = some (cls, p) →
      p.capability = Capability.model → p.train data = Except.error e →
      (train_model st name data).1 = Except.error e) ∧
    (∀ cls p, alookup st.plugins name = some (cls, p) →
      p.capability = Capability.model → p.predict data = Except.error e →
      (predict_with_model st name data).1 = Except.error e) := by
  have hg : ∀ cls p, alookup st.plugins name = some (cls, p) →
      get_plugin st name = Except.ok p := by
    intro cls p hlk
    unfold get_plugin
    rw [hlk]
  refine ⟨?_, ?_, ?_, ?_, ?_⟩
  · intro cls p hlk hcap hop
    unfold process_data
    rw [hg cls p hlk]
    dsimp only
    rw [if_pos hcap, hop]
  · intro cls p hlk hcap hop
    unfold create_visualization
    rw [hg cls p hlk]
    dsimp only
    rw [if_pos hcap, hop]
  · intro cls p hlk hcap hop
    unfold analyze_data
    rw [hg cls p hlk]
    dsimp only
    rw [if_pos hcap, hop]
  · intro cls p hlk hcap hop
    unfold train_model
    rw [hg cls p hlk]
    dsimp only
    rw [if_pos hcap, hop]
  · intro cls p hlk hcap hop
    unfold predict_with_model
    rw [hg cls p hlk]
    dsimp only
    rw [if_pos hcap, hop]

/-- Witness for the amended C8: the boom exception comes back unchanged
from the process_data dispatch. -/
theorem dispatch_errors_propagate_unchanged_wit :
    (process_data stBoom "boom" []).1 = Except.error (PyErr.exception "boom") :=
  (dispatch_errors_propagate_unchanged stBoom "boom" [] (PyErr.exception "boom")).1
    boomClass boomInstance rfl rfl rfl

/-- Claim C9: for every successful registration, when the supplied
configuration is absent or empty no configuration is stored and
get_plugin_config returns none; when it is non-empty, exactly the passed
configuration is stored. The hypothesis hpre records that the name held no
stale stored configuration before the call, which holds in every reachable
state by the configuration-subset invariant. -/
theorem register_falsy_config_not_stored (env : Env) (st : PluginManager)
    (cls : PluginClass) (config : Option Config) (plugin : PluginInstance)
    (hc : cls.construct = Except.ok plugin)
    (hok : (register_plugin env st cls config).1 = Except.ok ())
    (hpre : get_plugin_config st plugin.metadata.name = none) :
    ((config = none ∨ config = some []) →
      get_plugin_config (register_plugin env st cls config).2.1 plugin.metadata.name = none) ∧
    (∀ c, config = some c → c ≠ [] →
      get_plugin_config (register_plugin env st cls config).2.1 plugin.metadata.name
        = some c) := by
  obtain ⟨q, hcq, _hdup, _hv, _hi, hstate⟩ := register_plugin_ok_state env st cls config hok
  rw [hc] at hcq
  injection hcq with hq
  subst hq
  constructor
  · intro hfalsy
    rw [hstate]
    unfold get_plugin_config
    dsimp only
    have ht : configTruthy config = false := by
      rcases hfalsy with h1 | h1 <;> subst h1 <;> rfl
    rw [if_neg (by simp [ht])]
    exact hpre
  · intro c hcfg hne
    subst hcfg
    rw [hstate]
    unfold get_plugin_config
    dsimp only
    have ht : configTruthy (some c) = true := by
      cases c with
      | nil => exact absurd rfl hne
      | cons a l => rfl
    rw [if_pos ht]
    rw [alookup_aset_self]
    rfl

/-- Witness for C9: registering the demo class with no configuration on a
fresh manager stores nothing, and registering another with a one-entry
configuration stores exactly it. -/
theorem register_falsy_config_not_stored_wit :
    get_plugin_config (register_plugin envNone emptyManager (demoClass "demo" []) none).2.1
      "demo" = none :=
  (register_falsy_config_not_stored envNone emptyManager (demoClass "demo" []) none
    (demoInstance "demo" []) rfl rfl rfl).1 (Or.inl rfl)

theorem register_preserves_configsSub (env : Env) (st : PluginManager)
    (cls : PluginClass) (config : Option Config) (h : configsSub st) :
    configsSub (register_plugin env st cls config).2.1 := by
  rcases hr : (register_plugin env st cls config).1 with e | u
  · rw [register_plugin_error_state env st cls config e hr]
    exact h
  · obtain ⟨q, _hc, _hdup, _hv, _hi, hstate⟩ :=
      register_plugin_ok_state env st cls config (by cases u; exact hr)
    rw [hstate]
    intro n hn
    by_cases hq : q.metadata.name = n
    · dsimp only
      rw [← hq, alookup_aset_self]
      rfl
    · dsimp only at hn ⊢
      rw [alookup_aset_ne _ _ _ _ hq]
      apply h n
      by_cases ht : configTruthy config = true
      · rw [if_pos ht] at hn
        rw [alookup_aset_ne _ _ _ _ hq] at hn
        exact hn
      · rw [if_neg ht] at hn
        exact hn

theorem unregister_preserves_configsSub (st : PluginManager) (name : String)
    (h : configsSub st) : configsSub (unregister_plugin st name).2.1 := by
  rcases hr : (unregister_plugin st name).1 with e | u
  · rw [unregister_plugin_error_state st name e hr]
    exact h
  · rw [unregister_plugin_ok_state st name (by cases u; exact hr)]
    intro n hn
    by_cases hq : name = n
    · rw [← hq, alookup_aerase_self] at hn
      exact absurd hn (by simp)
    · dsimp only at hn ⊢
      rw [alookup_aerase_ne _ _ _ hq] at hn ⊢
      exact h n hn

theorem update_preserves_configsSub (st : PluginManager) (name : String)
    (config : Config) (h : configsSub st) :
    configsSub (update_plugin_config st name config).2.1 := by
  rcases hr : (update_plugin_config st name config).1 with e | u
  · rw [update_plugin_config_error_state st name config e hr]
    exact h
  · obtain ⟨hsome, hstate⟩ :=
      update_plugin_config_ok_state st name config (by cases u; exact hr)
    rw [hstate]
    intro n hn
    by_cases hq : name = n
    · rw [← hq]
      exact hsome
    · dsimp only at hn ⊢
      rw [alookup_aset_ne _ _ _ _ hq] at hn
      exact h n hn

theorem reload_preserves_configsSub (env : Env) (st : PluginManager) (name : String)
    (h : configsSub st) : configsSub (reload_plugin env st name).2.1 := by
  unfold reload_plugin
  rcases hlk : alookup st.plugins name with _ | ⟨cls, p⟩
  · exact h
  · dsimp only
    rcases hu : unregister_plugin st name with ⟨r1, st1, evs1⟩
    have h1 : configsSub st1 := by
      have := unregister_preserves_configsSub st name h
      rw [hu] at this
      exact this
    cases r1 with
    | error e => exact h1
    | ok u =>
        dsimp only
        rcases hr2 : register_plugin env st1 cls (alookup st.plugin_configs name)
          with ⟨r2, st2, evs2⟩
        have h2 : configsSub st2 := by
          have := register_preserves_configsSub env st1 cls
            (alookup st.plugin_configs name) h1
          rw [hr2] at this
          exact this
        cases r2 with
        | error e => exact h2
        | ok u2 => exact h2

theorem runOps_preserves_configsSub (env : Env) (ops : List Op) :
    ∀ st : PluginManager, configsSub st → configsSub (runOps env st ops) := by
  induction ops with
  | nil => intro st h; exact h
  | cons op rest ih =>
      intro st h
      apply ih
      cases op with
      | reg cls cfg => exact register_preserves_configsSub env st cls cfg h
      | unreg name => exact unregister_preserves_configsSub st name h
      | rel name => exact reload_preserves_configsSub env st name h
      | upd name cfg => exact update_preserves_configsSub st name cfg h

/-- Claim C10: at every state reachable from a fresh manager by any
sequence of register, unregister, reload and update-configuration
operations, every name holding a stored configuration is also a registered
plugin: the configuration table keys are a subset of the plugin table
keys. -/
theorem configs_subset_plugins_invariant (env : Env) (ops : List Op) (n : String)
    (h : (alookup (runOps env emptyManager ops).plugin_configs n).isSome = true) :
    (alookup (runOps env emptyManager ops).plugins n).isSome = true := by
  have h0 : configsSub emptyManager := by
    intro m hm
    exact hm
  exact runOps_preserves_configsSub env ops emptyManager h0 n h

/-- Witness for C10: after registering q with a configuration and then
reloading it, the name q holds a stored configuration and is registered. -/
theorem configs_subset_plugins_invariant_wit :
    (alookup (runOps envNone emptyManager
        [Op.reg (demoClass "q" []) (some [("k", "v")]), Op.rel "q"]).plugin_configs
      "q").isSome = true ∧
    (alookup (runOps envNone emptyManager
        [Op.reg (demoClass "q" []) (some [("k", "v")]), Op.rel "q"]).plugins
      "q").isSome = true :=
  ⟨rfl, configs_subset_plugins_invariant envNone
    [Op.reg (demoClass "q" []) (some [("k", "v")]), Op.rel "q"] "q" rfl⟩

end Chatplot
